import Mathlib

/-!
Verification of the WordPress MCP gateway (ssong-openmaru-io/ai-mcp-wordpress).

Shallow embedding of the session multiplexer (src/sse.ts), the tool layer
(src/server.ts), the WordPress REST client (src/wordpress-client.ts) and the
configuration loader (src/config.ts).  JavaScript `Map`s of sessions are
embedded as lists of their keys, absent JS object fields as `Option`, thrown
errors as `Except.error`, and `JSON.stringify(x, null, 2)` as a small
executable serializer.
-/

namespace WpMcp

/-! ## JSON serialization — models `JSON.stringify(data, null, 2)` (jsonText in src/server.ts) -/

/-- Escape of a single character inside a JSON string literal, as produced by
`JSON.stringify`. -/
def jsonEscapeChar (c : Char) : String :=
  if c = '"' then "\\\""
  else if c = '\\' then "\\\\"
  else if c = '\x08' then "\\b"
  else if c = '\x09' then "\\t"
  else if c = '\x0a' then "\\n"
  else if c = '\x0c' then "\\f"
  else if c = '\x0d' then "\\r"
  else if c.toNat < 32 then
    "\\u00" ++ String.mk [Nat.digitChar (c.toNat / 16), Nat.digitChar (c.toNat % 16)]
  else String.singleton c

/-- Escape of a character list. -/
def jsonEscapeList : List Char → String
  | [] => ""
  | c :: cs => jsonEscapeChar c ++ jsonEscapeList cs

/-- Escape of a whole string. -/
def jsonEscape (s : String) : String := jsonEscapeList s.data

/-- A JSON string literal with quotes. -/
def jsonQuote (s : String) : String := "\"" ++ jsonEscape s ++ "\""

/-- JSON values, covering the shapes serialized by the tool handlers. -/
inductive Json where
  | str (s : String)
  | num (n : Int)
  | bool (b : Bool)
  | null
  | arr (items : List Json)
  | obj (fields : List (String × Json))
deriving Repr

mutual

/-- `JSON.stringify` with a 2-space gap, at indentation prefix `ind`. -/
def stringifyVal (ind : String) : Json → String
  | .str s => jsonQuote s
  | .num n => toString n
  | .bool b => if b then "true" else "false"
  | .null => "null"
  | .arr [] => "[]"
  | .arr (x :: xs) => "[\n" ++ stringifyItems (ind ++ "  ") (x :: xs) ++ "\n" ++ ind ++ "]"
  | .obj [] => "\x7b\x7d"
  | .obj (f :: fs) => "\x7b\n" ++ stringifyFields (ind ++ "  ") (f :: fs) ++ "\n" ++ ind ++ "\x7d"

/-- Comma-and-newline separated array items. -/
def stringifyItems (ind : String) : List Json → String
  | [] => ""
  | [x] => ind ++ stringifyVal ind x
  | x :: y :: xs => ind ++ stringifyVal ind x ++ ",\n" ++ stringifyItems ind (y :: xs)

/-- Comma-and-newline separated object fields. -/
def stringifyFields (ind : String) : List (String × Json) → String
  | [] => ""
  | [(k, v)] => ind ++ jsonQuote k ++ ": " ++ stringifyVal ind v
  | (k, v) :: g :: gs =>
      ind ++ jsonQuote k ++ ": " ++ stringifyVal ind v ++ ",\n" ++ stringifyFields ind (g :: gs)

end

/-- src/server.ts `jsonText`: `JSON.stringify(data, null, 2)`. -/
def jsonText (data : Json) : String := stringifyVal "" data

/-! ## Call Envelope — the tool-result object literals of src/server.ts -/

/-- One element of the `content` array of a tool result. -/
structure ContentItem where
  type : String
  text : String
deriving Repr, DecidableEq

/-- A tool result object.  `isError := none` embeds a JS object literal with no
`isError` field (the success literals in src/server.ts); `some b` embeds an
explicit `isError: b`. -/
structure ToolResult where
  content : List ContentItem
  isError : Option Bool
deriving Repr, DecidableEq

/-- src/server.ts `errorResult`: the failure envelope
`content: [text jsonText(\x7b error: message \x7d)], isError: true`.  The caught
value is a thrown `Error`, embedded here by its `.message` string. -/
def errorResult (message : String) : ToolResult :=
  { content := [⟨"text", jsonText (Json.obj [("error", Json.str message)])⟩],
    isError := some true }

/-! ## stripHtml — `html.replace(/<[^>]*>/g, "").trim()` in src/server.ts -/

/-- Scans for the first `>` and returns the suffix after it; `none` when the
list holds no `>`.  Models the `[^>]*>` tail of the regex `<[^>]*>`: the greedy
class stops exactly at the first `>`. -/
def dropThroughGt : List Char → Option (List Char)
  | [] => none
  | c :: rest => if c = '>' then some rest else dropThroughGt rest

theorem dropThroughGt_length :
    ∀ (l rest : List Char), dropThroughGt l = some rest → rest.length < l.length := by
  intro l
  induction l with
  | nil => intro rest h; simp [dropThroughGt] at h
  | cons c cs ih =>
      intro rest h
      simp only [dropThroughGt] at h
      by_cases hc : c = '>'
      · simp [hc] at h
        simp [← h, List.length_cons, Nat.lt_succ_self]
      · simp [hc] at h
        exact Nat.lt_trans (ih rest h) (Nat.lt_succ_self _)

/-- Global replacement of the regex `<[^>]*>` by the empty string: each `<`
that is followed (anywhere) by a `>` swallows everything through the first
`>`; a `<` with no later `>` matches nothing, and then the remainder can hold
no further match. -/
def stripTags : List Char → List Char
  | [] => []
  | c :: rest =>
    if c = '<' then
      match h : dropThroughGt rest with
      | some rest2 => stripTags rest2
      | none => c :: rest
    else c :: stripTags rest
termination_by l => l.length
decreasing_by
  · have hlt := dropThroughGt_length _ _ h
    simp only [List.length_cons]
    omega
  · simp

/-- The whitespace class trimmed by JS `String.prototype.trim`. -/
def isJsWhitespace (c : Char) : Bool :=
  c = ' ' || c = '\t' || c = '\n' || c = '\r' || c = '\x0b' || c = '\x0c' ||
  c = '\u00A0' || c = '\uFEFF'

/-- JS `s.trim()`. -/
def jsTrim (s : String) : String :=
  String.mk (((s.data.dropWhile isJsWhitespace).reverse.dropWhile isJsWhitespace).reverse)

/-- src/server.ts `stripHtml`: `html.replace(/<[^>]*>/g, "").trim()`. -/
def stripHtml (html : String) : String := jsTrim (String.mk (stripTags html.data))

/-! ## WordPress post records and `cleanPost` (src/server.ts) -/

/-- A `\x7b rendered: string \x7d` field of the WordPress REST shapes. -/
structure Rendered where
  rendered : String
deriving Repr, DecidableEq

/-- The `WPPost` record shape of src/wordpress-client.ts. -/
structure WPPost where
  id : Int
  date : String
  slug : String
  status : String
  title : Rendered
  content : Rendered
  excerpt : Rendered
  author : Int
  featured_media : Int
  categories : List Int
  tags : List Int
  link : String
deriving Repr, DecidableEq

/-- The object literal returned by src/server.ts `cleanPost`. -/
structure CleanPost where
  id : Int
  date : String
  slug : String
  status : String
  title : String
  content : String
  excerpt : String
  author : Int
  featured_media : Int
  categories : List Int
  tags : List Int
  link : String
deriving Repr, DecidableEq

/-- src/server.ts `cleanPost`. -/
def cleanPost (post : WPPost) : CleanPost :=
  { id := post.id,
    date := post.date,
    slug := post.slug,
    status := post.status,
    title := stripHtml post.title.rendered,
    content := stripHtml post.content.rendered,
    excerpt := stripHtml post.excerpt.rendered,
    author := post.author,
    featured_media := post.featured_media,
    categories := post.categories,
    tags := post.tags,
    link := post.link }

/-- JSON encoding of a `cleanPost` literal, field order as in the source. -/
def encodeCleanPost (p : CleanPost) : Json :=
  Json.obj
    [("id", Json.num p.id),
     ("date", Json.str p.date),
     ("slug", Json.str p.slug),
     ("status", Json.str p.status),
     ("title", Json.str p.title),
     ("content", Json.str p.content),
     ("excerpt", Json.str p.excerpt),
     ("author", Json.num p.author),
     ("featured_media", Json.num p.featured_media),
     ("categories", Json.arr (p.categories.map Json.num)),
     ("tags", Json.arr (p.tags.map Json.num)),
     ("link", Json.str p.link)]

/-! ## WordPress client failure path (src/wordpress-client.ts `request`) -/

/-- The error message built by `WordPressClient.request` when `response.ok` is
false: `WordPress API 오류 ($\x7bstatus\x7d): $\x7berrorMessage\x7d`. -/
def wpErrorMessage (status : Nat) (message : String) : String :=
  "WordPress API 오류 (" ++ toString status ++ "): " ++ message

/-- Outcome of the `fetch` call inside `request`: either an OK response with a
decoded body, or a non-OK response with its status and the human-readable
message extracted from the error body. -/
inductive WPResponse (α : Type) where
  | ok (value : α)
  | err (status : Nat) (message : String)

/-- `WordPressClient.request`: returns the decoded body, or throws an `Error`
carrying `wpErrorMessage` when the response is not OK. -/
def requestResult {α : Type} : WPResponse α → Except String α
  | .ok v => Except.ok v
  | .err status msg => Except.error (wpErrorMessage status msg)

/-! ## Tool handlers (src/server.ts): backend outcome to Call Envelope -/

/-- The `getPost` tool callback: try/catch around `wp.getPost`. -/
def getPostHandler (r : Except String WPPost) : ToolResult :=
  match r with
  | .ok post => { content := [⟨"text", jsonText (encodeCleanPost (cleanPost post))⟩],
                  isError := none }
  | .error e => errorResult e

/-- The `listPosts` tool callback: `jsonText(posts.map(cleanPost))`. -/
def listPostsHandler (r : Except String (List WPPost)) : ToolResult :=
  match r with
  | .ok posts => { content := [⟨"text", jsonText (Json.arr ((posts.map cleanPost).map encodeCleanPost))⟩],
                   isError := none }
  | .error e => errorResult e

/-- The `createPost` tool callback. -/
def createPostHandler (r : Except String WPPost) : ToolResult :=
  match r with
  | .ok post => { content := [⟨"text", jsonText (encodeCleanPost (cleanPost post))⟩],
                  isError := none }
  | .error e => errorResult e

/-- The `updatePost` tool callback. -/
def updatePostHandler (r : Except String WPPost) : ToolResult :=
  match r with
  | .ok post => { content := [⟨"text", jsonText (encodeCleanPost (cleanPost post))⟩],
                  isError := none }
  | .error e => errorResult e

/-- The `deletePost` tool callback:
`jsonText(\x7b deleted, post: cleanPost(result.previous) \x7d)`. -/
def deletePostHandler (r : Except String (Bool × WPPost)) : ToolResult :=
  match r with
  | .ok result => { content := [⟨"text", jsonText (Json.obj
                      [("deleted", Json.bool result.1),
                       ("post", encodeCleanPost (cleanPost result.2))])⟩],
                    isError := none }
  | .error e => errorResult e

/-! ## Session stores and HTTP route handlers (src/sse.ts)

A JS `Map` of sessions is embedded by its list of keys; `Map.has` is a
membership test, `Map.set` a cons, `Map.delete` an erase.  JS string
truthiness (`sessionId && ...`, `!sessionId || ...`) is modelled explicitly:
the empty string is falsy. -/

/-- Keys of one session `Map` (streamableSessions or legacySessions). -/
abbrev SessionStore := List String

/-- JS truthiness of a string value. -/
def jsTruthyStr (s : String) : Bool := s ≠ ""

/-- `Map.has`. -/
def hasKey (store : SessionStore) (sid : String) : Bool := decide (sid ∈ store)

/-- Outcome of the `POST /mcp` route. -/
inductive PostMcpOutcome where
  | rejectedInvalidSession
  | routedExisting (sid : String)
  | newSession (stored : Option String)
deriving Repr, DecidableEq

/-- The new-session tail of the `POST /mcp` handler: a fresh server and
`StreamableHTTPServerTransport` are built and the request is handled there;
the store gains an entry exactly when the fresh transport acquires a session
id (`if (transport.sessionId) streamableSessions.set(...)`).  `newSid` is the
id the SDK transport holds after `connect`/`handleRequest`. -/
def postMcpNewSession (store : SessionStore) (newSid : Option String) :
    PostMcpOutcome × SessionStore :=
  match newSid with
  | some nid => (.newSession (some nid), nid :: store)
  | none => (.newSession none, store)

/-- The `app.post("/mcp")` handler: route to the existing session when the
`mcp-session-id` header is truthy and is a key of the store
(`sessionId && streamableSessions.has(sessionId)`); otherwise run the
new-session path. -/
def postMcp (store : SessionStore) (header : Option String) (newSid : Option String) :
    PostMcpOutcome × SessionStore :=
  match header with
  | some sid =>
      if jsTruthyStr sid && hasKey store sid then (.routedExisting sid, store)
      else postMcpNewSession store newSid
  | none => postMcpNewSession store newSid

/-- Outcome of the `DELETE /mcp` route. -/
inductive DeleteMcpOutcome where
  | rejectedInvalidSession
  | handledAndRemoved (sid : String)
deriving Repr, DecidableEq

/-- The `app.delete("/mcp")` handler: reject with 400 `유효하지 않은 세션입니다`
when the header is missing, falsy, or not a key
(`!sessionId || !streamableSessions.has(sessionId)`); otherwise hand the
request to the transport and delete the entry. -/
def deleteMcp (store : SessionStore) (header : Option String) :
    DeleteMcpOutcome × SessionStore :=
  match header with
  | none => (.rejectedInvalidSession, store)
  | some sid =>
      if jsTruthyStr sid && hasKey store sid then (.handledAndRemoved sid, store.erase sid)
      else (.rejectedInvalidSession, store)

/-- `transport.onclose`: `if (id) streamableSessions.delete(id)`. -/
def streamableOnClose (store : SessionStore) (transportSid : Option String) : SessionStore :=
  match transportSid with
  | some sid => if jsTruthyStr sid then store.erase sid else store
  | none => store

/-- Outcome of the `POST /messages` route. -/
inductive MessagesOutcome where
  | rejectedInvalidSession
  | handledByTransport (sid : String)
deriving Repr, DecidableEq

/-- The `app.post("/messages")` handler: reject with 400 when the `sessionId`
query parameter is missing, falsy, or not a key of `legacySessions`
(`!sessionId || !legacySessions.has(sessionId)`); otherwise hand the message
to that session's transport (`transport.handlePostMessage`). -/
def postMessages (store : SessionStore) (sessionId : Option String) :
    MessagesOutcome × SessionStore :=
  match sessionId with
  | none => (.rejectedInvalidSession, store)
  | some sid =>
      if jsTruthyStr sid && hasKey store sid then (.handledByTransport sid, store)
      else (.rejectedInvalidSession, store)

/-- The JSON body written by the `GET /health` handler. -/
structure HealthBody where
  status : String
  streamableSessions : Nat
  legacySessions : Nat
  wordpress : String
deriving Repr, DecidableEq

/-- The `app.get("/health")` handler: a 200 `res.json` with liveness and the
two `Map.size` values; both stores are returned untouched. -/
def healthHandler (streamable legacy : SessionStore) (baseUrl : String) :
    HealthBody × SessionStore × SessionStore :=
  ({ status := "ok",
     streamableSessions := streamable.length,
     legacySessions := legacy.length,
     wordpress := baseUrl }, streamable, legacy)

/-! ## Configuration loading (src/config.ts) and the sse.ts entry point -/

/-- The process environment variables read by `loadConfig`, `none` for unset. -/
structure Env where
  WORDPRESS_BASE_URL : Option String
  WORDPRESS_TOKEN : Option String
  WORDPRESS_USERNAME : Option String
  WORDPRESS_APP_PASSWORD : Option String
  SSE_PORT : Option String
  WORDPRESS_TLS_REJECT_UNAUTHORIZED : Option String
  NODE_TLS_REJECT_UNAUTHORIZED : Option String
deriving Repr, DecidableEq

/-- JS truthiness of a possibly-unset environment value. -/
def jsTruthyOptStr : Option String → Bool
  | none => false
  | some s => jsTruthyStr s

/-- JS `a || b` on a possibly-unset string. -/
def jsOrStr (v : Option String) (dflt : String) : String :=
  match v with
  | some s => if s = "" then dflt else s
  | none => dflt

/-- Leading decimal digits of a character list, `none` when there are none. -/
def digitsPrefixVal (l : List Char) : Option Nat :=
  match l.takeWhile Char.isDigit with
  | [] => none
  | ds => some (ds.foldl (fun acc c => acc * 10 + (c.toNat - 48)) 0)

/-- JS `parseInt(s, 10)`: skip leading whitespace, optional sign, then leading
digits; `none` models `NaN`. -/
def jsParseInt (s : String) : Option Int :=
  match s.data.dropWhile isJsWhitespace with
  | '-' :: ds => (digitsPrefixVal ds).map (fun n => -(n : Int))
  | '+' :: ds => (digitsPrefixVal ds).map (fun n => (n : Int))
  | ds => (digitsPrefixVal ds).map (fun n => (n : Int))

/-- JS `s.replace(/\/+$/, "")`. -/
def stripTrailingSlashes (s : String) : String :=
  String.mk ((s.data.reverse.dropWhile (fun c => c = '/')).reverse)

/-- The `auth` union of the `Config` interface. -/
inductive Auth where
  | basic (username password : String)
  | bearer (token : String)
deriving Repr, DecidableEq

/-- The `Config` interface of src/config.ts.  `ssePort = none` models `NaN`
from `parseInt`. -/
structure Config where
  baseUrl : String
  auth : Auth
  ssePort : Option Int
  tlsRejectUnauthorized : Bool
deriving Repr, DecidableEq

/-- src/config.ts `loadConfig`: throws when `WORDPRESS_BASE_URL` is falsy, or
when neither `WORDPRESS_TOKEN` nor the pair `WORDPRESS_USERNAME` +
`WORDPRESS_APP_PASSWORD` is truthy. -/
def loadConfig (env : Env) : Except String Config :=
  if jsTruthyOptStr env.WORDPRESS_BASE_URL = false then
    Except.error "WORDPRESS_BASE_URL 환경 변수가 설정되지 않았습니다."
  else if jsTruthyOptStr env.WORDPRESS_TOKEN then
    Except.ok
      { baseUrl := stripTrailingSlashes (env.WORDPRESS_BASE_URL.getD ""),
        auth := Auth.bearer (env.WORDPRESS_TOKEN.getD ""),
        ssePort := jsParseInt (jsOrStr env.SSE_PORT "3000"),
        tlsRejectUnauthorized :=
          decide (env.WORDPRESS_TLS_REJECT_UNAUTHORIZED ≠ some "false") &&
          decide (env.NODE_TLS_REJECT_UNAUTHORIZED ≠ some "0") }
  else if jsTruthyOptStr env.WORDPRESS_USERNAME && jsTruthyOptStr env.WORDPRESS_APP_PASSWORD then
    Except.ok
      { baseUrl := stripTrailingSlashes (env.WORDPRESS_BASE_URL.getD ""),
        auth := Auth.basic (env.WORDPRESS_USERNAME.getD "") (env.WORDPRESS_APP_PASSWORD.getD ""),
        ssePort := jsParseInt (jsOrStr env.SSE_PORT "3000"),
        tlsRejectUnauthorized :=
          decide (env.WORDPRESS_TLS_REJECT_UNAUTHORIZED ≠ some "false") &&
          decide (env.NODE_TLS_REJECT_UNAUTHORIZED ≠ some "0") }
  else
    Except.error
      "인증 정보가 설정되지 않았습니다. WORDPRESS_TOKEN 또는 WORDPRESS_USERNAME + WORDPRESS_APP_PASSWORD를 설정하세요."

/-- Result of the sse.ts process entry point. -/
inductive MainResult where
  | exitedWithFailure
  | listening (port : Option Int)
deriving Repr, DecidableEq

/-- The sse.ts entry point: `main()` calls `loadConfig()` first; a thrown
error reaches `main().catch`, which logs and calls `process.exit(1)` before
`app.listen` is ever reached. -/
def sseMain (env : Env) : MainResult :=
  match loadConfig env with
  | .error _ => .exitedWithFailure
  | .ok cfg => .listening cfg.ssePort

/-! ## Tool parameter schemas and validation (src/server.ts)

The constraint sets below are translated from the zod schema literals given to
`server.tool` in src/server.ts.  The surrounding validate-then-invoke wrapper
lives in the MCP SDK, not under src/; it is modelled from the spec. -/

/-- The `listPosts` parameter record (also the raw argument shape: all fields
optional, violations live in bounds and enumerations). -/
structure ListPostsParams where
  page : Option Int
  per_page : Option Int
  search : Option String
  status : Option String
  orderby : Option String
  order : Option String
deriving Repr, DecidableEq

/-- The raw `createPost` argument shape before validation: the required
`title` and `content` may be missing. -/
structure RawCreatePostParams where
  title : Option String
  content : Option String
  slug : Option String
  status : Option String
  excerpt : Option String
  author : Option Int
  featured_media : Option Int
  categories : Option (List Int)
  tags : Option (List Int)
deriving Repr, DecidableEq

/-- The validated `createPost` parameter record (`CreatePostParams` of
src/wordpress-client.ts). -/
structure CreatePostParams where
  title : String
  content : String
  slug : Option String
  status : Option String
  excerpt : Option String
  author : Option Int
  featured_media : Option Int
  categories : Option (List Int)
  tags : Option (List Int)
deriving Repr, DecidableEq

/-- `z.enum([...])` of the `listPosts` status filter. -/
def postStatusFilterValues : List String := ["publish", "draft", "pending", "private", "trash"]

/-- `z.enum([...])` of the `listPosts` orderby field. -/
def postOrderbyValues : List String := ["date", "id", "title", "slug", "modified"]

/-- `z.enum(["asc", "desc"])`. -/
def orderValues : List String := ["asc", "desc"]

/-- `z.enum([...])` of the `createPost` status field (no `trash`). -/
def createStatusValues : List String := ["publish", "draft", "pending", "private"]

/-- `z.number().int().min(lo).optional()`. -/
def checkOptIntMin (v : Option Int) (lo : Int) : Bool :=
  match v with
  | none => true
  | some n => decide (lo ≤ n)

/-- `z.number().int().min(lo).max(hi).optional()`. -/
def checkOptIntRange (v : Option Int) (lo hi : Int) : Bool :=
  match v with
  | none => true
  | some n => decide (lo ≤ n) && decide (n ≤ hi)

/-- `z.enum(values).optional()`. -/
def checkOptEnum (v : Option String) (values : List String) : Bool :=
  match v with
  | none => true
  | some s => values.contains s

/-- Modelled from the spec: the SDK-side schema evaluation of the `listPosts`
zod literal (the validator engine is the zod dependency, not code under src/);
the constraint set is read off the schema literal in src/server.ts.  The first
violation found produces a validation failure. -/
def validateListPosts (p : ListPostsParams) : Except String ListPostsParams :=
  if checkOptIntMin p.page 1 = false then Except.error "invalid parameters: page"
  else if checkOptIntRange p.per_page 1 100 = false then Except.error "invalid parameters: per_page"
  else if checkOptEnum p.status postStatusFilterValues = false then Except.error "invalid parameters: status"
  else if checkOptEnum p.orderby postOrderbyValues = false then Except.error "invalid parameters: orderby"
  else if checkOptEnum p.order orderValues = false then Except.error "invalid parameters: order"
  else Except.ok p

/-- Modelled from the spec: the SDK-side schema evaluation of the `createPost`
zod literal; `title` and `content` are required, `status` is the four-value
enumeration, `author` is `int().min(1)`. -/
def validateCreatePost (p : RawCreatePostParams) : Except String CreatePostParams :=
  match p.title with
  | none => Except.error "invalid parameters: title is required"
  | some title =>
    match p.content with
    | none => Except.error "invalid parameters: content is required"
    | some content =>
      if checkOptEnum p.status createStatusValues = false then
        Except.error "invalid parameters: status"
      else if checkOptIntMin p.author 1 = false then
        Except.error "invalid parameters: author"
      else
        Except.ok
          { title := title, content := content, slug := p.slug, status := p.status,
            excerpt := p.excerpt, author := p.author, featured_media := p.featured_media,
            categories := p.categories, tags := p.tags }

/-- Modelled from the spec: the Dispatcher for `listPosts` — validate, then
invoke the handler on the validated parameters; on a validation failure return
a failure envelope and never call the Backend Client.  The second component
counts Backend Client invocations. -/
def dispatchListPosts (raw : ListPostsParams)
    (backend : ListPostsParams → Except String (List WPPost)) : ToolResult × Nat :=
  match validateListPosts raw with
  | .error e => (errorResult e, 0)
  | .ok params => (listPostsHandler (backend params), 1)

/-- Modelled from the spec: the Dispatcher for `createPost`. -/
def dispatchCreatePost (raw : RawCreatePostParams)
    (backend : CreatePostParams → Except String WPPost) : ToolResult × Nat :=
  match validateCreatePost raw with
  | .error e => (errorResult e, 0)
  | .ok params => (createPostHandler (backend params), 1)

/-- Schema violations of `listPosts` named by the claims: `page` below 1,
`per_page` outside 1..100, or a value outside one of the enumerations. -/
def violatesListPostsSchema (p : ListPostsParams) : Bool :=
  !checkOptIntMin p.page 1 || !checkOptIntRange p.per_page 1 100 ||
  !checkOptEnum p.status postStatusFilterValues || !checkOptEnum p.orderby postOrderbyValues ||
  !checkOptEnum p.order orderValues

/-- Schema violations of `createPost` named by the claims: a missing required
field, an unknown `status`, or `author` below 1. -/
def violatesCreatePostSchema (p : RawCreatePostParams) : Bool :=
  p.title.isNone || p.content.isNone ||
  !checkOptEnum p.status createStatusValues || !checkOptIntMin p.author 1

/-! ## Backend request construction (src/wordpress-client.ts) -/

/-- The JSON body literal of `WordPressClient.createPost`:
`status: params.status || "draft"`, all other fields passed through. -/
structure CreatePostBody where
  title : String
  content : String
  slug : Option String
  status : String
  excerpt : Option String
  author : Option Int
  featured_media : Option Int
  categories : Option (List Int)
  tags : Option (List Int)
deriving Repr, DecidableEq

/-- src/wordpress-client.ts `createPost` request body. -/
def createPostBody (params : CreatePostParams) : CreatePostBody :=
  { title := params.title,
    content := params.content,
    slug := params.slug,
    status := jsOrStr params.status "draft",
    excerpt := params.excerpt,
    author := params.author,
    featured_media := params.featured_media,
    categories := params.categories,
    tags := params.tags }

/-- `request`'s query-string construction: `url.searchParams.set` runs only
for entries whose value is not `undefined`. -/
def buildSearchParams (qs : List (String × Option String)) : List (String × String) :=
  qs.filterMap (fun kv => kv.2.map (fun v => (kv.1, v)))

/-- An HTTP request built by `WordPressClient.request`. -/
structure WPRequest where
  method : String
  path : String
  query : List (String × String)
deriving Repr, DecidableEq

/-- src/wordpress-client.ts `deletePost`: `DELETE /posts/:id` with
`\x7b force: force ? "true" : undefined \x7d`. -/
def deletePostRequest (id : Int) (force : Bool) : WPRequest :=
  { method := "DELETE",
    path := "/posts/" ++ toString id,
    query := buildSearchParams [("force", if force then some "true" else none)] }

/-- The `deletePost` tool callback's `force ?? false` defaulting
(src/server.ts). -/
def deletePostToolForce (force : Option Bool) : Bool := force.getD false

/-! ## Helper lemmas -/

/-- A character that `JSON.stringify` copies into a string literal verbatim. -/
def plainJsonChar (c : Char) : Bool :=
  !(c = '"' || c = '\\' || decide (c.toNat < 32))

/-- `sub` occurs contiguously inside `s`. -/
def strContains (s sub : String) : Prop :=
  ∃ pre suf, s.data = pre ++ sub.data ++ suf

theorem jsonEscapeChar_plain (c : Char) (h : plainJsonChar c = true) :
    jsonEscapeChar c = String.singleton c := by
  simp only [plainJsonChar, Bool.not_eq_true', Bool.or_eq_false_iff, decide_eq_false_iff_not] at h
  obtain ⟨⟨h1, h2⟩, h3⟩ := h
  unfold jsonEscapeChar
  rw [if_neg h1, if_neg h2]
  have hge : ¬ c.toNat < 32 := h3
  have : ∀ x : Char, c = x → x.toNat < 32 → False := by
    intro x hx hlt; exact hge (hx ▸ hlt)
  rw [if_neg (fun h => this _ h (by decide)), if_neg (fun h => this _ h (by decide)),
      if_neg (fun h => this _ h (by decide)), if_neg (fun h => this _ h (by decide)),
      if_neg (fun h => this _ h (by decide)), if_neg hge]

theorem jsonEscapeList_data_plain (l : List Char) (h : l.all plainJsonChar = true) :
    (jsonEscapeList l).data = l := by
  induction l with
  | nil => rfl
  | cons c cs ih =>
      simp only [List.all_cons, Bool.and_eq_true] at h
      simp only [jsonEscapeList, String.data_append, jsonEscapeChar_plain c h.1, ih h.2]
      rfl

theorem jsonEscape_data_plain (s : String) (h : s.data.all plainJsonChar = true) :
    (jsonEscape s).data = s.data :=
  jsonEscapeList_data_plain s.data h

theorem errorPayload_eq (M : String) :
    jsonText (Json.obj [("error", Json.str M)]) =
      "\x7b\n  \"error\": \"" ++ jsonEscape M ++ "\"\n\x7d" := by
  apply String.ext
  simp only [jsonText, stringifyVal, stringifyFields, jsonQuote, String.data_append]
  have e1 : ("\x7b\n" : String).data = ['\x7b', '\n'] := by decide
  have e2 : ("  " : String).data = [' ', ' '] := by decide
  have e3 : (jsonEscape "error").data = ['e', 'r', 'r', 'o', 'r'] := by decide
  have e4 : (": " : String).data = [':', ' '] := by decide
  have e5 : ("\"" : String).data = ['"'] := by decide
  have e6 : ("\n" : String).data = ['\n'] := by decide
  have e7 : ("\x7d" : String).data = ['\x7d'] := by decide
  have e8 : ("\x7b\n  \"error\": \"" : String).data =
      ['\x7b', '\n', ' ', ' ', '"', 'e', 'r', 'r', 'o', 'r', '"', ':', ' ', '"'] := by decide
  have e9 : ("\"\n\x7d" : String).data = ['"', '\n', '\x7d'] := by decide
  simp [e1, e2, e3, e4, e5, e6, e7, e8, e9]

theorem errorResult_contains (M : String) (h : M.data.all plainJsonChar = true) :
    strContains (jsonText (Json.obj [("error", Json.str M)])) M := by
  rw [errorPayload_eq]
  refine ⟨("\x7b\n  \"error\": \"" : String).data, ("\"\n\x7d" : String).data, ?_⟩
  simp [String.data_append, jsonEscape_data_plain M h]

/-- Concatenations of plain strings stay plain. -/
theorem all_plain_append (a b : String)
    (ha : a.data.all plainJsonChar = true) (hb : b.data.all plainJsonChar = true) :
    (a ++ b).data.all plainJsonChar = true := by
  simp only [String.data_append, List.all_append, Bool.and_eq_true]
  exact ⟨ha, hb⟩

/-! ## Sample values used by witnesses and counterexamples -/

/-- A concrete WordPress post record. -/
def samplePost : WPPost :=
  { id := 1,
    date := "2026-01-01T00:00:00",
    slug := "hello-world",
    status := "publish",
    title := ⟨"<p>Hello</p>"⟩,
    content := ⟨"<p>Body text</p>"⟩,
    excerpt := ⟨" Summary "⟩,
    author := 1,
    featured_media := 0,
    categories := [1, 3],
    tags := [],
    link := "https://example.com/hello-world" }

/-- A `listPosts` argument violating the `per_page` upper bound. -/
def badListPostsArgs : ListPostsParams :=
  { page := none, per_page := some 200, search := none, status := none,
    orderby := none, order := none }

/-- A `createPost` argument missing the required `title`. -/
def badCreatePostArgs : RawCreatePostParams :=
  { title := none, content := some "<p>hi</p>", slug := none, status := none,
    excerpt := none, author := none, featured_media := none, categories := none,
    tags := none }

/-- An environment with nothing set. -/
def emptyEnv : Env :=
  { WORDPRESS_BASE_URL := none, WORDPRESS_TOKEN := none, WORDPRESS_USERNAME := none,
    WORDPRESS_APP_PASSWORD := none, SSE_PORT := none,
    WORDPRESS_TLS_REJECT_UNAUTHORIZED := none, NODE_TLS_REJECT_UNAUTHORIZED := none }

/-! ## Further helper lemmas for the claims -/

theorem jsonEscapeList_data_append (l1 l2 : List Char) :
    (jsonEscapeList (l1 ++ l2)).data = (jsonEscapeList l1).data ++ (jsonEscapeList l2).data := by
  induction l1 with
  | nil => simp [jsonEscapeList]
  | cons c cs ih =>
      simp only [List.cons_append, jsonEscapeList, String.data_append, List.append_eq, ih,
        List.append_assoc]

theorem wpError_escape_data (status : Nat) (msg : String)
    (h : msg.data.all plainJsonChar = true) :
    (jsonEscape (wpErrorMessage status msg)).data =
      (jsonEscapeList (("WordPress API 오류 (" ++ toString status ++ "): ") : String).data).data
        ++ msg.data := by
  unfold wpErrorMessage jsonEscape
  rw [String.data_append, jsonEscapeList_data_append, jsonEscapeList_data_plain msg.data h]

theorem errorResult_contains_backendMsg (status : Nat) (msg : String)
    (h : msg.data.all plainJsonChar = true) :
    strContains (jsonText (Json.obj [("error", Json.str (wpErrorMessage status msg))])) msg := by
  rw [errorPayload_eq]
  refine ⟨("\x7b\n  \"error\": \"" : String).data ++
      (jsonEscapeList (("WordPress API 오류 (" ++ toString status ++ "): ") : String).data).data,
    ("\"\n\x7d" : String).data, ?_⟩
  simp only [String.data_append, wpError_escape_data status msg h, List.append_assoc]

theorem dropThroughGt_append (inner rest : List Char) (h : '>' ∉ inner) :
    dropThroughGt (inner ++ '>' :: rest) = some rest := by
  induction inner with
  | nil => simp [dropThroughGt]
  | cons c cs ih =>
      simp only [List.mem_cons, not_or] at h
      simp only [List.cons_append, dropThroughGt]
      rw [if_neg (fun hc => h.1 hc.symm)]
      exact ih h.2

theorem stripTags_removes_tag (inner rest : List Char) (h : '>' ∉ inner) :
    stripTags ('<' :: (inner ++ '>' :: rest)) = stripTags rest := by
  rw [stripTags, if_pos rfl]
  split
  · rename_i rest2 heq
    rw [dropThroughGt_append inner rest h] at heq
    injection heq with heq
    rw [heq]
  · rename_i heq
    rw [dropThroughGt_append inner rest h] at heq
    cases heq

theorem validateListPosts_error_of_violation (p : ListPostsParams)
    (h : violatesListPostsSchema p = true) :
    ∃ e, validateListPosts p = Except.error e := by
  unfold validateListPosts
  by_cases c1 : checkOptIntMin p.page 1 = false
  · rw [if_pos c1]; exact ⟨_, rfl⟩
  · rw [if_neg c1]
    by_cases c2 : checkOptIntRange p.per_page 1 100 = false
    · rw [if_pos c2]; exact ⟨_, rfl⟩
    · rw [if_neg c2]
      by_cases c3 : checkOptEnum p.status postStatusFilterValues = false
      · rw [if_pos c3]; exact ⟨_, rfl⟩
      · rw [if_neg c3]
        by_cases c4 : checkOptEnum p.orderby postOrderbyValues = false
        · rw [if_pos c4]; exact ⟨_, rfl⟩
        · rw [if_neg c4]
          by_cases c5 : checkOptEnum p.order orderValues = false
          · rw [if_pos c5]; exact ⟨_, rfl⟩
          · exfalso
            simp only [violatesListPostsSchema, Bool.or_eq_true, Bool.not_eq_true'] at h
            rcases h with ((((h1 | h2) | h3) | h4) | h5)
            · exact c1 h1
            · exact c2 h2
            · exact c3 h3
            · exact c4 h4
            · exact c5 h5

theorem validateCreatePost_error_of_violation (p : RawCreatePostParams)
    (h : violatesCreatePostSchema p = true) :
    ∃ e, validateCreatePost p = Except.error e := by
  unfold validateCreatePost
  cases ht : p.title with
  | none => exact ⟨_, rfl⟩
  | some t =>
    cases hc : p.content with
    | none => exact ⟨_, rfl⟩
    | some ct =>
      dsimp only
      by_cases c3 : checkOptEnum p.status createStatusValues = false
      · rw [if_pos c3]; exact ⟨_, rfl⟩
      · rw [if_neg c3]
        by_cases c4 : checkOptIntMin p.author 1 = false
        · rw [if_pos c4]; exact ⟨_, rfl⟩
        · exfalso
          simp only [violatesCreatePostSchema, ht, hc, Option.isNone_some,
            Bool.or_eq_true, Bool.not_eq_true', Bool.false_eq_true, false_or] at h
          rcases h with h3 | h4
          · exact c3 h3
          · exact c4 h4

/-! ## Claims -/

/-- Claim C1, counterexample: a `POST /mcp` carrying the session id
`deadbeef`, which is not a key of the (empty) streamable store, is not
rejected; the handler runs the new-session path and, the fresh transport
having acquired id `s1`, the store gains that entry — so a new session is
created although the request carried a session id. -/
theorem postMcp_unknown_id_counterexample :
    (postMcp [] (some "deadbeef") (some "s1")).1 = PostMcpOutcome.newSession (some "s1") ∧
    (postMcp [] (some "deadbeef") (some "s1")).1 ≠ PostMcpOutcome.rejectedInvalidSession ∧
    (postMcp [] (some "deadbeef") (some "s1")).2 = ["s1"] := by
  refine ⟨rfl, ?_, rfl⟩
  decide

/-- Claim C1 (amended): a `POST /mcp` whose `mcp-session-id` header is not a
key of the streamable store is treated exactly like a request with no session
id: the new-session path runs (no protocol-level rejection), and the store
gains the fresh transport's session id when one is assigned and is unchanged
otherwise. -/
theorem postMcp_unknown_id_amended (store : SessionStore) (sid : String) (newSid : Option String)
    (h : hasKey store sid = false) :
    postMcp store (some sid) newSid = postMcp store none newSid ∧
    (postMcp store (some sid) newSid).1 = PostMcpOutcome.newSession newSid ∧
    (postMcp store (some sid) newSid).1 ≠ PostMcpOutcome.rejectedInvalidSession ∧
    (postMcp store (some sid) newSid).2 =
      (match newSid with | some nid => nid :: store | none => store) := by
  have hcond : (jsTruthyStr sid && hasKey store sid) = false := by simp [h]
  cases newSid <;> simp [postMcp, postMcpNewSession, hcond]

/-- Claim C1, witness for the amended theorem. -/
theorem postMcp_unknown_id_amended_witness :
    postMcp ["live"] (some "stale") (some "fresh") = postMcp ["live"] none (some "fresh") :=
  (postMcp_unknown_id_amended ["live"] "stale" (some "fresh") (by decide)).1

/-- Claim C2, counterexample: after `DELETE /mcp` has removed session `s1`, a
second `DELETE /mcp` for `s1` is rejected with the 400 invalid-session
protocol error — it is surfaced as an error to the caller, not a silent
no-op. -/
theorem deleteMcp_second_delete_counterexample :
    (deleteMcp ["s1"] (some "s1")).1 = DeleteMcpOutcome.handledAndRemoved "s1" ∧
    (deleteMcp ((deleteMcp ["s1"] (some "s1")).2) (some "s1")).1 =
      DeleteMcpOutcome.rejectedInvalidSession := by
  decide

/-- Claim C2 (amended): teardown is idempotent on the store but not silent at
the route: a first `DELETE /mcp` for a live id removes the entry; a second
`DELETE /mcp` for the same id leaves the store unchanged but is rejected with
the 400 invalid-session protocol error; only the connection-close path
(`transport.onclose`) is a true no-op on an already-removed id. -/
theorem deleteMcp_teardown_amended (store : SessionStore) (sid : String)
    (hnd : store.Nodup) (hsid : sid ≠ "") (h : hasKey store sid = true) :
    (deleteMcp store (some sid)).1 = DeleteMcpOutcome.handledAndRemoved sid ∧
    (deleteMcp store (some sid)).2 = store.erase sid ∧
    deleteMcp (store.erase sid) (some sid) =
      (DeleteMcpOutcome.rejectedInvalidSession, store.erase sid) ∧
    streamableOnClose (store.erase sid) (some sid) = store.erase sid := by
  have hmem : sid ∉ store.erase sid := hnd.not_mem_erase
  have htr : jsTruthyStr sid = true := by simp [jsTruthyStr, hsid]
  refine ⟨?_, ?_, ?_, ?_⟩
  · simp [deleteMcp, htr, h]
  · simp [deleteMcp, htr, h]
  · simp [deleteMcp, htr, hasKey, hmem]
  · simp [streamableOnClose, htr, List.erase_of_not_mem hmem]

/-- Claim C2, witness for the amended theorem. -/
theorem deleteMcp_teardown_amended_witness :
    deleteMcp ((["s1"] : SessionStore).erase "s1") (some "s1") =
      (DeleteMcpOutcome.rejectedInvalidSession, (["s1"] : SessionStore).erase "s1") :=
  (deleteMcp_teardown_amended ["s1"] "s1" (by decide) (by decide) (by decide)).2.2.1

/-- Claim C3, counterexample: the success envelope of `getPost` on a concrete
post carries no `isError` field at all (`none` in the embedding), so the flag
is not present with value `false` on success as the claim states. -/
theorem successEnvelope_flag_counterexample :
    (getPostHandler (Except.ok samplePost)).isError ≠ some false ∧
    (getPostHandler (Except.ok samplePost)).isError = none := by
  constructor
  · simp [getPostHandler]
  · rfl

/-- Claim C3 (amended): success and failure envelopes both carry a content
payload of exactly one text item, and differ only in the error flag — absent
(`none`) on success, present with value `true` on failure — so the flag alone
distinguishes the two cases. -/
theorem envelope_shape_amended (r : Except String WPPost) (rl : Except String (List WPPost)) :
    (getPostHandler r).content.map ContentItem.type = ["text"] ∧
    (getPostHandler r).isError =
      (match r with | .ok _ => none | .error _ => some true) ∧
    (listPostsHandler rl).content.map ContentItem.type = ["text"] ∧
    (listPostsHandler rl).isError =
      (match rl with | .ok _ => none | .error _ => some true) := by
  cases r <;> cases rl <;> simp [getPostHandler, listPostsHandler, errorResult]

/-- Claim C4: when the WordPress client's request fails with status `status`
and backend message `msg`, the thrown error carries `wpErrorMessage status
msg`; the tool handler catches it and returns (totally — no exception escapes
the embedding) a failure envelope with the error flag set, a single text
item, and a payload containing the backend's message verbatim. -/
theorem backendFailure_envelope (status : Nat) (msg : String)
    (h : msg.data.all plainJsonChar = true) :
    getPostHandler (requestResult (WPResponse.err status msg)) =
      errorResult (wpErrorMessage status msg) ∧
    (errorResult (wpErrorMessage status msg)).isError = some true ∧
    (errorResult (wpErrorMessage status msg)).content.map ContentItem.type = ["text"] ∧
    ∀ item ∈ (errorResult (wpErrorMessage status msg)).content, strContains item.text msg := by
  refine ⟨rfl, rfl, rfl, ?_⟩
  intro item hitem
  simp only [errorResult, List.mem_singleton] at hitem
  subst hitem
  exact errorResult_contains_backendMsg status msg h

/-- Claim C4, witness: a 404 with a concrete Korean backend message. -/
theorem backendFailure_envelope_witness :
    ("게시글을 찾을 수 없습니다".data.all plainJsonChar = true) ∧
    getPostHandler (requestResult (WPResponse.err 404 "게시글을 찾을 수 없습니다")) =
      errorResult (wpErrorMessage 404 "게시글을 찾을 수 없습니다") :=
  ⟨by decide, (backendFailure_envelope 404 "게시글을 찾을 수 없습니다" (by decide)).1⟩

/-- Claim C5: raw parameters that violate the declared schema — a missing
required `createPost` field, a `listPosts` numeric bound violation, or an
enumeration violation — yield a failure envelope, and the backend is invoked
zero times, whatever backend function is plugged in. -/
theorem validationFailure_blocks_backend (rawL : ListPostsParams) (rawC : RawCreatePostParams)
    (bL : ListPostsParams → Except String (List WPPost))
    (bC : CreatePostParams → Except String WPPost)
    (hL : violatesListPostsSchema rawL = true) (hC : violatesCreatePostSchema rawC = true) :
    (dispatchListPosts rawL bL).2 = 0 ∧ (dispatchListPosts rawL bL).1.isError = some true ∧
    (dispatchCreatePost rawC bC).2 = 0 ∧ (dispatchCreatePost rawC bC).1.isError = some true := by
  obtain ⟨eL, heL⟩ := validateListPosts_error_of_violation rawL hL
  obtain ⟨eC, heC⟩ := validateCreatePost_error_of_violation rawC hC
  refine ⟨?_, ?_, ?_, ?_⟩ <;> simp [dispatchListPosts, dispatchCreatePost, heL, heC, errorResult]

/-- Claim C5, witness: `listPosts` with `per_page = 200` and `createPost`
with no `title`, against backend stubs that would succeed if called. -/
theorem validationFailure_blocks_backend_witness :
    violatesListPostsSchema badListPostsArgs = true ∧
    violatesCreatePostSchema badCreatePostArgs = true ∧
    (dispatchListPosts badListPostsArgs (fun _ => Except.ok [])).2 = 0 ∧
    (dispatchCreatePost badCreatePostArgs (fun _ => Except.ok samplePost)).2 = 0 := by
  have hmain := validationFailure_blocks_backend badListPostsArgs badCreatePostArgs
    (fun _ => Except.ok []) (fun _ => Except.ok samplePost) (by decide) (by decide)
  exact ⟨by decide, by decide, hmain.1, hmain.2.2.1⟩

/-- Claim C6: with `status` absent, `createPost` sends `status = "draft"` to
the backend, for every choice of the other parameters; and `deletePost` with
`force` absent builds exactly the request of `force = false`, whose `force`
query parameter is omitted. -/
theorem optionalDefaults_applied (p : CreatePostParams) (hp : p.status = none) (id : Int) :
    (createPostBody p).status = "draft" ∧
    deletePostRequest id (deletePostToolForce none) =
      deletePostRequest id (deletePostToolForce (some false)) ∧
    (deletePostRequest id (deletePostToolForce none)).query = [] := by
  refine ⟨?_, rfl, rfl⟩
  simp [createPostBody, jsOrStr, hp]

/-- Claim C6, witness. -/
theorem optionalDefaults_applied_witness :
    (createPostBody
      { title := "T", content := "C", slug := none, status := none, excerpt := none,
        author := none, featured_media := none, categories := none, tags := none }).status =
      "draft" :=
  (optionalDefaults_applied _ rfl 7).1

/-- Claim C7: a `POST /messages` whose `sessionId` query parameter is absent
or not a key of the legacy store is rejected with the 400 protocol error and
the store is untouched (no dispatch, no event); the message is handed to a
transport exactly when the id is a live store key. -/
theorem postMessages_unknown_rejected (store : SessionStore) (q : Option String) :
    (∀ sid, q = some sid → hasKey store sid = false →
        postMessages store q = (MessagesOutcome.rejectedInvalidSession, store)) ∧
    (q = none → postMessages store q = (MessagesOutcome.rejectedInvalidSession, store)) ∧
    (postMessages store q).2 = store ∧
    (∀ sid, (postMessages store q).1 = MessagesOutcome.handledByTransport sid →
        q = some sid ∧ hasKey store sid = true) ∧
    (∀ sid, q = some sid → jsTruthyStr sid = true → hasKey store sid = true →
        (postMessages store q).1 = MessagesOutcome.handledByTransport sid) := by
  refine ⟨?_, ?_, ?_, ?_, ?_⟩
  · intro sid hq hk
    subst hq
    simp [postMessages, hk]
  · intro hq
    subst hq
    simp [postMessages]
  · cases q with
    | none => rfl
    | some s =>
        simp only [postMessages]
        split <;> rfl
  · intro sid hout
    cases q with
    | none => simp [postMessages] at hout
    | some s =>
        simp only [postMessages] at hout
        split at hout
        · rename_i hcond
          simp only [Bool.and_eq_true] at hcond
          simp only at hout
          injection hout with hout
          subst hout
          exact ⟨rfl, hcond.2⟩
        · simp at hout
  · intro sid hq htr hk
    subst hq
    simp [postMessages, htr, hk]

/-- Claim C7, witness: an unknown id against a store holding one session. -/
theorem postMessages_unknown_rejected_witness :
    postMessages ["abc"] (some "zzz") = (MessagesOutcome.rejectedInvalidSession, ["abc"]) :=
  (postMessages_unknown_rejected ["abc"] (some "zzz")).1 "zzz" rfl (by decide)

/-- Claim C8: with `WORDPRESS_BASE_URL` unset, or neither `WORDPRESS_TOKEN`
nor the pair `WORDPRESS_USERNAME` + `WORDPRESS_APP_PASSWORD` set, `loadConfig`
raises an error and the sse.ts entry point exits with failure status — no
listener is bound. -/
theorem loadConfig_missing_env_aborts (env : Env)
    (h : env.WORDPRESS_BASE_URL = none ∨
         (env.WORDPRESS_TOKEN = none ∧
          (env.WORDPRESS_USERNAME = none ∨ env.WORDPRESS_APP_PASSWORD = none))) :
    (∃ e, loadConfig env = Except.error e) ∧ sseMain env = MainResult.exitedWithFailure := by
  have herr : ∃ e, loadConfig env = Except.error e := by
    unfold loadConfig
    by_cases hbase : jsTruthyOptStr env.WORDPRESS_BASE_URL = false
    · rw [if_pos hbase]
      exact ⟨_, rfl⟩
    · rcases h with hb | ⟨ht, hup⟩
      · rw [hb] at hbase
        exact absurd rfl hbase
      · rw [if_neg hbase, ht]
        rcases hup with hu | hp
        · rw [hu]
          exact ⟨_, rfl⟩
        · rw [hp]
          refine ⟨"인증 정보가 설정되지 않았습니다. WORDPRESS_TOKEN 또는 WORDPRESS_USERNAME + WORDPRESS_APP_PASSWORD를 설정하세요.", ?_⟩
          simp [jsTruthyOptStr]
  obtain ⟨e, he⟩ := herr
  exact ⟨⟨e, he⟩, by simp [sseMain, he]⟩

/-- Claim C8, witness: the empty environment. -/
theorem loadConfig_missing_env_aborts_witness :
    (∃ e, loadConfig emptyEnv = Except.error e) ∧
    sseMain emptyEnv = MainResult.exitedWithFailure :=
  loadConfig_missing_env_aborts emptyEnv (Or.inl rfl)

/-- Claim C9: `GET /health` reports liveness `"ok"` together with the entry
counts of the streamable and legacy stores, and returns both stores
unmodified, for every state of the stores. -/
theorem healthHandler_liveness (streamable legacy : SessionStore) (baseUrl : String) :
    (healthHandler streamable legacy baseUrl).1.status = "ok" ∧
    (healthHandler streamable legacy baseUrl).1.streamableSessions = streamable.length ∧
    (healthHandler streamable legacy baseUrl).1.legacySessions = legacy.length ∧
    (healthHandler streamable legacy baseUrl).2 = (streamable, legacy) :=
  ⟨rfl, rfl, rfl, rfl⟩

/-- Claim C10: `cleanPost` rewrites exactly the three rendered-text fields by
`stripHtml` (every `<[^>]*>` tag occurrence removed — witnessed by the
tag-removal equation — then trimmed) and passes the other nine fields through
unchanged; all four post-returning tool handlers serialize `cleanPost`-ed
data on success. -/
theorem cleanPost_frame (post : WPPost) (posts : List WPPost)
    (inner rest : List Char) (h : '>' ∉ inner) :
    cleanPost post =
      { id := post.id, date := post.date, slug := post.slug, status := post.status,
        title := stripHtml post.title.rendered, content := stripHtml post.content.rendered,
        excerpt := stripHtml post.excerpt.rendered, author := post.author,
        featured_media := post.featured_media, categories := post.categories,
        tags := post.tags, link := post.link } ∧
    stripHtml post.title.rendered = jsTrim (String.mk (stripTags post.title.rendered.data)) ∧
    stripTags ('<' :: (inner ++ '>' :: rest)) = stripTags rest ∧
    listPostsHandler (Except.ok posts) =
      { content := [⟨"text", jsonText (Json.arr ((posts.map cleanPost).map encodeCleanPost))⟩],
        isError := none } ∧
    getPostHandler (Except.ok post) =
      { content := [⟨"text", jsonText (encodeCleanPost (cleanPost post))⟩], isError := none } ∧
    createPostHandler (Except.ok post) =
      { content := [⟨"text", jsonText (encodeCleanPost (cleanPost post))⟩], isError := none } ∧
    updatePostHandler (Except.ok post) =
      { content := [⟨"text", jsonText (encodeCleanPost (cleanPost post))⟩], isError := none } :=
  ⟨rfl, rfl, stripTags_removes_tag inner rest h, rfl, rfl, rfl, rfl⟩

/-- Claim C10, witness: the tag `<p>` is removed in front of `Hi`. -/
theorem cleanPost_frame_witness :
    stripTags ('<' :: (['p'] ++ '>' :: "Hi".data)) = stripTags "Hi".data :=
  (cleanPost_frame samplePost [] ['p'] "Hi".data (by decide)).2.2.1

end WpMcp
